import Mathlib

/-!
Verification of the DD-Studio session/state controller
(`src/components/PresetSelector.tsx`, `App` component).

The TypeScript source is shallowly embedded: every React `useState` cell that
the verified logic reads or writes becomes a field of `SessionState`, and every
event handler becomes a pure state-transition function.  Asynchronous service
calls are abstracted by a `CallOutcome` parameter (fulfilled non-empty result,
fulfilled empty/null result, or rejection), and each pipeline run additionally
returns the number of external-boundary invocations it performed.  Values that
the handlers obtain from the environment (`new Date().toISOString()`) are
passed in as parameters.  UI-only state (menus, fullscreen, language) and the
arguments of the external calls themselves are outside the verified core and
are not represented.
-/

/-- A preset of one category (`types.ts` interface `Preset` and its
subinterfaces).  The `icon` React node is omitted; `metadata` is the optional
extra field carried by camera/lighting presets. -/
structure Preset where
  id : String
  name : String
  description : String
  metadata : Option String := none
  deriving Repr, DecidableEq

/-- `types.ts` interface `ImageFile`.  The browser `File` handle is opaque and
omitted. -/
structure ImageFile where
  base64 : String
  mimeType : String
  deriving Repr, DecidableEq

/-- A generated image `{ base64, mimeType }` as produced by the service. -/
structure GenResult where
  base64 : String
  mimeType : String
  deriving Repr, DecidableEq

/-- `types.ts` `AppMode = 'design-kit' | 'creative-studio'`. -/
inductive AppMode where
  | designKit
  | creativeStudio
  deriving Repr, DecidableEq

/-- `types.ts` `CreativeMode = 'illustrate' | 'retouch'`. -/
inductive CreativeMode where
  | illustrate
  | retouch
  deriving Repr, DecidableEq

/-- `types.ts` `RetouchSubMode = 'smart' | 'environment'`. -/
inductive RetouchSubMode where
  | smart
  | environment
  deriving Repr, DecidableEq

/-- `types.ts` `UpscaleTarget = 'hd' | '4k'`. -/
inductive UpscaleTarget where
  | hd
  | fourK
  deriving Repr, DecidableEq

/-- The literal string value of an `UpscaleTarget` (`'hd'` / `'4k'`). -/
def UpscaleTarget.lower : UpscaleTarget → String
  | .hd => "hd"
  | .fourK => "4k"

/-- `target.toUpperCase()` as used for the upscale history prompt. -/
def UpscaleTarget.upper (t : UpscaleTarget) : String :=
  t.lower.toUpper

/-- `types.ts` interface `HistoryItem`. -/
structure HistoryItem where
  id : String
  source : ImageFile
  generated : GenResult
  prompt : String
  mode : AppMode
  creativeSubMode : Option CreativeMode := none
  deriving Repr, DecidableEq

/-- The suggestion map returned by `analyzeForCompositeSuggestions`
(`Record<string, string[]>` restricted to the five category keys the effect
reads; an absent key is the empty list). -/
structure SuggestionMap where
  camera : List String
  lighting : List String
  manipulation : List String
  retouch : List String
  peopleRetouch : List String
  deriving Repr, DecidableEq

/-- The empty suggestion map (`{}` in the source). -/
def emptySuggestions : SuggestionMap :=
  { camera := [], lighting := [], manipulation := [], retouch := [], peopleRetouch := [] }

/-- The preset catalogs imported from `constants.ts` (`CAMERA_PRESETS`,
`LIGHTING_PRESETS`, ...).  `constants.ts` is not among the provided sources, so
the handlers are parameterized over the catalogs; the spec fixes that each
catalog is a fixed non-empty constant containing exactly one preset with
id `"none"`. -/
structure Catalogs where
  camera : List Preset
  lighting : List Preset
  mockup : List Preset
  manipulation : List Preset
  peopleRetouch : List Preset
  retouch : List Preset
  deriving Repr, DecidableEq

/-- The multi-select toggle produced by `createToggleHandler`
(`PresetSelector.tsx:501-515`), as a pure function of the category's catalog
`presets`, the previous selection `prev`, and the clicked `preset`.
`presets.find(p => p.id === 'none')!` is modelled by
`(presets.find? ...).toList`, which is the singleton `[nonePreset]` whenever
the sentinel exists in the catalog (the source's `!` assertion). -/
def createToggle (presets prev : List Preset) (preset : Preset) : List Preset :=
  if preset.id = "none" then (presets.find? (fun p => decide (p.id = "none"))).toList
  else if prev.any (fun p => decide (p.id = preset.id)) then
    if prev.length = 1 then (presets.find? (fun p => decide (p.id = "none"))).toList
    else prev.filter (fun p => decide (p.id ≠ preset.id))
  else prev.filter (fun p => decide (p.id ≠ "none")) ++ [preset]

/-- The single-select mockup handler `handleMockupSelect`
(`PresetSelector.tsx:522-524`): `current[0]?.id === preset.id ?
[MOCKUP_PRESETS[0]] : [preset]`. -/
def handleMockupSelect (mockups : List Preset) (preset : Preset)
    (current : List Preset) : List Preset :=
  match current.head? with
  | some q => if q.id = preset.id then mockups.take 1 else [preset]
  | none => [preset]

/-- The per-category selection rewrite performed by the auto-analysis effect
(`runAnalysis`, `PresetSelector.tsx:483-487`): when the suggestion list for a
category is non-empty, the selection is replaced wholesale by the catalog
presets whose id appears in the list; otherwise it is left unchanged. -/
def analysisReplace (catalog : List Preset) (sugg : List String)
    (current : List Preset) : List Preset :=
  if sugg.isEmpty then current
  else catalog.filter (fun p => decide (p.id ∈ sugg))

/-- The category-selection invariant of the data model: a selection is either
exactly the sentinel singleton, or a non-empty duplicate-free collection that
excludes the sentinel. -/
def SelInv (S : List Preset) : Prop :=
  S.map Preset.id = ["none"] ∨
    (S ≠ [] ∧ "none" ∉ S.map Preset.id ∧ (S.map Preset.id).Nodup)

instance (S : List Preset) : Decidable (SelInv S) := by
  unfold SelInv
  infer_instance

/-- `HistoryCache.append`: the update `prev => [newHistoryItem, ...prev].slice(0, 12)`
used at every history write (`PresetSelector.tsx:553,631,689,716,797`). -/
def appendHistory (item : HistoryItem) (prev : List HistoryItem) : List HistoryItem :=
  (item :: prev).take 12

/-- The session state of the `AppContent` component: one field per `useState`
cell read or written by the verified handlers (selections, images, results,
error slots, busy flags, history, the magic-composite flag and the suggestion
map).  `isUpscaling : false | UpscaleTarget` becomes `Option UpscaleTarget`. -/
structure SessionState where
  appMode : AppMode
  isOnline : Bool
  productImage : Option ImageFile
  referenceImage : Option ImageFile
  generatedImage : Option GenResult
  selectedCameras : List Preset
  selectedLightings : List Preset
  selectedMockups : List Preset
  selectedManipulations : List Preset
  selectedPeopleRetouches : List Preset
  selectedRetouches : List Preset
  customPrompt : String
  useMagicComposite : Bool
  isLoading : Bool
  isAnalyzing : Bool
  suggestedPresetIds : SuggestionMap
  error : Option String
  creativeMode : CreativeMode
  isGeneratingCreative : Bool
  creativeError : Option String
  illustrationImage : Option ImageFile
  illustrationReferenceImage : Option ImageFile
  illustrationCustomPrompt : String
  illustrationResultImage : Option GenResult
  isGeneratingIllustration : Bool
  generationStatusText : String
  personImage : Option ImageFile
  retouchResultImage : Option GenResult
  retouchSubMode : RetouchSubMode
  selectedEnvironment : String
  generationHistory : List HistoryItem
  isUpscaling : Option UpscaleTarget
  upscaleError : Option String
  deriving Repr, DecidableEq

/-- Outcome of one settled external-boundary call: fulfilled with a non-empty
result, fulfilled with an empty/null result, or rejected.  A rejection carries
`some message` when the thrown value is an `Error` (its `.message`), `none`
otherwise (the handlers then fall back to a generic string). -/
inductive CallOutcome (α : Type) where
  | ok (result : α)
  | empty
  | fail (message : Option String)
  deriving Repr, DecidableEq

/-- `handleMagicCompositeToggle` (`PresetSelector.tsx:526-536`): stores the
flag; when disabling, synchronously resets the five multi-select categories to
`[CATALOG[0]]` and clears the suggestion map.  `[CATALOG[0]]` is `catalog.take 1`
(the catalogs are non-empty constants). -/
def handleMagicCompositeToggle (cats : Catalogs) (enabled : Bool)
    (s : SessionState) : SessionState :=
  let s1 := { s with useMagicComposite := enabled }
  if enabled then s1
  else
    { s1 with
      selectedCameras := cats.camera.take 1
      selectedLightings := cats.lighting.take 1
      selectedManipulations := cats.manipulation.take 1
      selectedRetouches := cats.retouch.take 1
      selectedPeopleRetouches := cats.peopleRetouch.take 1
      suggestedPresetIds := emptySuggestions }

/-- The state rewrite performed by the auto-analysis effect on a successful
`analyzeForCompositeSuggestions` call (`runAnalysis`, `PresetSelector.tsx:483-488`):
each category with a non-empty suggestion list is replaced wholesale, and the
raw map is stored; the busy flag is dropped again by the `finally` block. -/
def runAnalysisSuccess (cats : Catalogs) (sugg : SuggestionMap)
    (s : SessionState) : SessionState :=
  { s with
    selectedCameras := analysisReplace cats.camera sugg.camera s.selectedCameras
    selectedLightings := analysisReplace cats.lighting sugg.lighting s.selectedLightings
    selectedManipulations :=
      analysisReplace cats.manipulation sugg.manipulation s.selectedManipulations
    selectedRetouches := analysisReplace cats.retouch sugg.retouch s.selectedRetouches
    selectedPeopleRetouches :=
      analysisReplace cats.peopleRetouch sugg.peopleRetouch s.selectedPeopleRetouches
    suggestedPresetIds := sugg
    isAnalyzing := false }

/-- The synchronous prefix of `handleDesignKitGeneration` once its
precondition holds (`PresetSelector.tsx:543-546`): busy flag up, own error slot
and the upscale error slot cleared, prior result cleared. -/
def designKitBegin (s : SessionState) : SessionState :=
  { s with isLoading := true, error := none, upscaleError := none, generatedImage := none }

/-- `handleDesignKitGeneration` (`PresetSelector.tsx:538-563`) as a pure
function of the state, the fresh history id, and the outcome of the
`generateImage` call; the second component counts external invocations. -/
def handleDesignKitGeneration (s : SessionState) (newId : String)
    (outcome : CallOutcome GenResult) : SessionState × Nat :=
  match s.isOnline, s.productImage with
  | false, _ =>
      ({ s with error := some "You are offline. Please check your internet connection." }, 0)
  | true, none =>
      ({ s with error := some "Please upload a product image first." }, 0)
  | true, some src =>
      let s1 := designKitBegin s
      let s2 :=
        match outcome with
        | .ok r =>
            { s1 with
              generatedImage := some r
              generationHistory :=
                appendHistory
                  { id := newId, source := src, generated := r,
                    prompt := s.customPrompt, mode := .designKit, creativeSubMode := none }
                  s1.generationHistory }
        | .empty =>
            { s1 with error := some "The AI could not generate an image. Please try again." }
        | .fail m =>
            { s1 with error := some (m.getD "An unknown error occurred.") }
      ({ s2 with isLoading := false }, 1)

/-- The synchronous prefix of `handleGenerateIllustration` once its
precondition holds (`PresetSelector.tsx:620-623`). -/
def illustrationBegin (s : SessionState) : SessionState :=
  { s with
    isGeneratingIllustration := true
    creativeError := none
    illustrationResultImage := none
    generationStatusText := "Sketching your vision..." }

/-- `handleGenerateIllustration` (`PresetSelector.tsx:615-642`). -/
def handleGenerateIllustration (s : SessionState) (newId : String)
    (outcome : CallOutcome GenResult) : SessionState × Nat :=
  match s.isOnline, s.illustrationImage with
  | false, _ => ({ s with creativeError := some "You are offline." }, 0)
  | true, none => ({ s with creativeError := some "Please upload an image to illustrate." }, 0)
  | true, some src =>
      let s1 := illustrationBegin s
      let s2 :=
        match outcome with
        | .ok r =>
            { s1 with
              illustrationResultImage := some r
              generationHistory :=
                appendHistory
                  { id := newId, source := src, generated := r,
                    prompt := s.illustrationCustomPrompt, mode := .creativeStudio,
                    creativeSubMode := some .illustrate }
                  s1.generationHistory }
        | .empty =>
            { s1 with
              creativeError := some
                "The AI could not generate an illustration. Please try a different style or image." }
        | .fail m =>
            { s1 with
              creativeError := some (m.getD "An unknown error occurred during illustration.") }
      ({ s2 with isGeneratingIllustration := false, generationStatusText := "" }, 1)

/-- The synchronous prefix of `handleSmartRetouch` once its precondition holds
(`PresetSelector.tsx:680-683`). -/
def smartRetouchBegin (s : SessionState) : SessionState :=
  { s with
    isGeneratingCreative := true
    generationStatusText := "Performing high-end face retouch..."
    creativeError := none
    retouchResultImage := none }

/-- `handleSmartRetouch` (`PresetSelector.tsx:675-700`). -/
def handleSmartRetouch (s : SessionState) (newId : String)
    (outcome : CallOutcome GenResult) : SessionState × Nat :=
  match s.isOnline, s.personImage with
  | false, _ => ({ s with creativeError := some "You are offline." }, 0)
  | true, none => ({ s with creativeError := some "Please upload a portrait to retouch." }, 0)
  | true, some src =>
      let s1 := smartRetouchBegin s
      let s2 :=
        match outcome with
        | .ok r =>
            { s1 with
              retouchResultImage := some r
              generationHistory :=
                appendHistory
                  { id := newId, source := src, generated := r,
                    prompt := "Smart Studio Retouch", mode := .creativeStudio,
                    creativeSubMode := some .retouch }
                  s1.generationHistory }
        | .empty =>
            { s1 with creativeError := some "The AI could not retouch the image." }
        | .fail m =>
            { s1 with
              creativeError := some (m.getD "An unknown error occurred during retouching.") }
      ({ s2 with isGeneratingCreative := false, generationStatusText := "" }, 1)

/-- The synchronous prefix of `handleEnvironmentGeneration` once its
precondition holds (`PresetSelector.tsx:707-710`). -/
def environmentBegin (s : SessionState) : SessionState :=
  { s with
    isGeneratingCreative := true
    generationStatusText := "Harmonizing light, color, and shadows..."
    creativeError := none
    retouchResultImage := none }

/-- `handleEnvironmentGeneration` (`PresetSelector.tsx:702-727`). -/
def handleEnvironmentGeneration (s : SessionState) (newId : String)
    (outcome : CallOutcome GenResult) : SessionState × Nat :=
  match s.isOnline, s.personImage with
  | false, _ => ({ s with creativeError := some "You are offline." }, 0)
  | true, none => ({ s with creativeError := some "Please upload a portrait." }, 0)
  | true, some src =>
      let s1 := environmentBegin s
      let s2 :=
        match outcome with
        | .ok r =>
            { s1 with
              retouchResultImage := some r
              generationHistory :=
                appendHistory
                  { id := newId, source := src, generated := r,
                    prompt := "Environment: " ++ s.selectedEnvironment,
                    mode := .creativeStudio, creativeSubMode := some .retouch }
                  s1.generationHistory }
        | .empty =>
            { s1 with creativeError := some "The AI could not generate the environment." }
        | .fail m =>
            { s1 with
              creativeError :=
                some (m.getD "An unknown error occurred during environment generation.") }
      ({ s2 with isGeneratingCreative := false, generationStatusText := "" }, 1)

/-- `handleHistorySelect` (`PresetSelector.tsx:744-770`): restores the mode
(and, for creative-studio items, the sub-mode via
`item.creativeSubMode || 'illustrate'`), clears the three error slots, resets
all result fields, then restores the target mode's source/result(/prompt)
fields from the item. -/
def handleHistorySelect (s : SessionState) (item : HistoryItem) : SessionState :=
  let s1 :=
    { s with
      appMode := item.mode
      error := none
      creativeError := none
      upscaleError := none
      generatedImage := none
      retouchResultImage := none
      illustrationResultImage := none }
  match item.mode with
  | .designKit =>
      { s1 with
        productImage := some item.source
        generatedImage := some item.generated
        customPrompt := item.prompt }
  | .creativeStudio =>
      let s2 := { s1 with creativeMode := item.creativeSubMode.getD .illustrate }
      if item.creativeSubMode = some CreativeMode.illustrate then
        { s2 with
          illustrationImage := some item.source
          illustrationCustomPrompt := item.prompt
          illustrationResultImage := some item.generated }
      else
        { s2 with
          personImage := some item.source
          retouchResultImage := some item.generated }

/-- The mode-polymorphic upscale source result (`imageToUpscale`,
`PresetSelector.tsx:774`). -/
def imageToUpscale (s : SessionState) : Option GenResult :=
  if s.appMode = AppMode.designKit then s.generatedImage
  else if s.creativeMode = CreativeMode.retouch then s.retouchResultImage
  else s.illustrationResultImage

/-- The mode-polymorphic upscale source image (`sourceImage`,
`PresetSelector.tsx:775`). -/
def upscaleSourceImage (s : SessionState) : Option ImageFile :=
  if s.appMode = AppMode.designKit then s.productImage
  else if s.creativeMode = CreativeMode.retouch then s.personImage
  else s.illustrationImage

/-- The synchronous prefix of `handleUpscale` once its precondition holds
(`PresetSelector.tsx:779-783`): note that it clears all three error slots. -/
def upscaleBegin (t : UpscaleTarget) (s : SessionState) : SessionState :=
  { s with
    isUpscaling := some t
    upscaleError := none
    error := none
    creativeError := none
    generationStatusText := "Upscaling with detail preservation..." }

/-- `handleUpscale` (`PresetSelector.tsx:772-808`).  When either the polymorphic
source result or source image is absent it returns silently (no error write,
no call). -/
def handleUpscale (s : SessionState) (target : UpscaleTarget) (newId : String)
    (outcome : CallOutcome GenResult) : SessionState × Nat :=
  match imageToUpscale s, upscaleSourceImage s with
  | some _, some src =>
      let s1 := upscaleBegin target s
      let s2 :=
        match outcome with
        | .ok r =>
            let promptForHistory :=
              if s.appMode = AppMode.designKit then s.customPrompt
              else "Upscaled to " ++ target.upper
            let s2a :=
              if s.appMode = AppMode.designKit then { s1 with generatedImage := some r }
              else if s.creativeMode = CreativeMode.retouch then { s1 with retouchResultImage := some r }
              else { s1 with illustrationResultImage := some r }
            { s2a with
              generationHistory :=
                appendHistory
                  { id := newId ++ "-upscaled-" ++ target.lower, source := src,
                    generated := r, prompt := promptForHistory, mode := s.appMode,
                    creativeSubMode :=
                      if s.appMode = AppMode.creativeStudio then some s.creativeMode else none }
                  s2a.generationHistory }
        | .empty => { s1 with upscaleError := some "The AI could not upscale the image." }
        | .fail m =>
            { s1 with
              upscaleError := some (m.getD "An unknown error occurred during upscaling.") }
      ({ s2 with isUpscaling := none, generationStatusText := "" }, 1)
  | _, _ => (s, 0)

-- ### scratch examples (toggle semantics on small inputs)

example :
    createToggle
      [⟨"none", "None", "", none⟩, ⟨"a", "A", "", none⟩, ⟨"b", "B", "", none⟩]
      [⟨"a", "A", "", none⟩]
      ⟨"b", "B", "", none⟩ =
      [⟨"a", "A", "", none⟩, ⟨"b", "B", "", none⟩] := by decide

example :
    createToggle
      [⟨"none", "None", "", none⟩, ⟨"a", "A", "", none⟩, ⟨"b", "B", "", none⟩]
      [⟨"a", "A", "", none⟩, ⟨"b", "B", "", none⟩]
      ⟨"a", "A", "", none⟩ =
      [⟨"b", "B", "", none⟩] := by decide

example :
    createToggle
      [⟨"none", "None", "", none⟩, ⟨"a", "A", "", none⟩, ⟨"b", "B", "", none⟩]
      [⟨"b", "B", "", none⟩]
      ⟨"b", "B", "", none⟩ =
      [⟨"none", "None", "", none⟩] := by decide

-- ### Helper lemmas

theorem find_none_id (presets : List Preset) (N : Preset)
    (hN : presets.find? (fun q => decide (q.id = "none")) = some N) :
    N.id = "none" := by
  have := List.find?_some hN
  simpa using this

theorem any_id_iff (l : List Preset) (x : String) :
    l.any (fun q => decide (q.id = x)) = true ↔ x ∈ l.map Preset.id := by
  rw [List.any_eq_true]
  constructor
  · rintro ⟨q, hq, hqx⟩
    exact List.mem_map.mpr ⟨q, hq, by simpa using hqx⟩
  · intro h
    obtain ⟨q, hq, hqx⟩ := List.mem_map.mp h
    exact ⟨q, hq, by simpa using hqx⟩

theorem filter_id_ne_of_not_mem (l : List Preset) (x : String)
    (h : x ∉ l.map Preset.id) :
    l.filter (fun q => decide (q.id ≠ x)) = l := by
  apply List.filter_eq_self.mpr
  intro a ha
  simp only [ne_eq, decide_not, Bool.not_eq_true', decide_eq_false_iff_not]
  intro hax
  exact h (List.mem_map.mpr ⟨a, ha, hax⟩)

theorem filter_ne_eq_eraseP (l : List Preset) (x : String)
    (h : (l.map Preset.id).Nodup) :
    l.filter (fun q => decide (q.id ≠ x)) = l.eraseP (fun q => decide (q.id = x)) := by
  induction l with
  | nil => rfl
  | cons a t ih =>
      simp only [List.map_cons, List.nodup_cons] at h
      by_cases hax : a.id = x
      · rw [List.filter_cons_of_neg (by simp [hax]),
            List.eraseP_cons_of_pos (by simp [hax])]
        exact filter_id_ne_of_not_mem t x (hax ▸ h.1)
      · rw [List.filter_cons_of_pos (by simp [hax]),
            List.eraseP_cons_of_neg (by simp [hax]), ih h.2]

theorem filter_ne_nonempty (a b : Preset) (t : List Preset) (x : String)
    (h : ((a :: b :: t).map Preset.id).Nodup) :
    (a :: b :: t).filter (fun q => decide (q.id ≠ x)) ≠ [] := by
  intro hemp
  rw [List.filter_eq_nil_iff] at hemp
  have ha := hemp a (by simp)
  have hb := hemp b (by simp)
  simp only [ne_eq, decide_not, Bool.not_eq_true', decide_eq_false_iff_not, not_not] at ha hb
  simp only [List.map_cons, List.nodup_cons, List.mem_cons] at h
  exact h.1 (Or.inl (ha.trans hb.symm))

theorem take_one_of_head (l : List Preset) (a : Preset) (h : l.head? = some a) :
    l.take 1 = [a] := by
  cases l with
  | nil => simp at h
  | cons b t =>
      simp only [List.head?_cons, Option.some.injEq] at h
      subst h
      rfl

theorem head_appendHistory (item : HistoryItem) (l : List HistoryItem) :
    (appendHistory item l).head? = some item := rfl

theorem cons_take_take (a : HistoryItem) (l : List HistoryItem) :
    (a :: l.take 12).take 12 = (a :: l).take 12 := by
  simp [List.take_succ_cons, List.take_take]

theorem foldl_appendHistory (xs h0 : List HistoryItem) :
    xs.foldl (fun acc item => appendHistory item acc) (h0.take 12) =
      (xs.reverse ++ h0).take 12 := by
  induction xs generalizing h0 with
  | nil => simp
  | cons a t ih =>
      simp only [List.foldl_cons]
      rw [show appendHistory a (h0.take 12) = ((a :: h0).take 12) from cons_take_take a h0,
        ih (a :: h0), List.reverse_cons, List.append_assoc]
      rfl

-- ### Concrete instances used by witnesses and counterexamples

/-- Modelled from the spec: `constants.ts` (the concrete preset catalogs such
as `CAMERA_PRESETS`) is not among the provided sources.  The spec fixes only
that every category's catalog contains exactly one reserved sentinel preset
with id `"none"`, and its toggle scenario names two camera presets CameraA and
CameraB.  This is a minimal such camera catalog, used to instantiate the
catalog-parameterized handlers in witnesses and counterexamples. -/
def cameraCatalogModel : List Preset :=
  [{ id := "none", name := "None", description := "No camera preset" },
   { id := "camera-a", name := "CameraA", description := "" },
   { id := "camera-b", name := "CameraB", description := "" }]

def camNone : Preset := { id := "none", name := "None", description := "No camera preset" }

def camA : Preset := { id := "camera-a", name := "CameraA", description := "" }

def camB : Preset := { id := "camera-b", name := "CameraB", description := "" }

-- ### Claim theorems

/-- C1: for every multi-select preset category with sentinel `N` (the preset
with id `"none"`) and current (duplicate-free) selection `S`, the toggle
yields `[N]` when the sentinel itself is toggled; `[N]` when the toggled preset
is the only selection; `S` with the preset removed (relative order preserved)
when the preset is selected among others; and otherwise `S` with the sentinel
removed and the preset appended after the existing non-sentinel members. -/
theorem toggle_spec_cases (presets prev : List Preset) (p N : Preset)
    (hN : presets.find? (fun q => decide (q.id = "none")) = some N)
    (hnd : (prev.map Preset.id).Nodup) :
    (p.id = "none" → createToggle presets prev p = [N]) ∧
    (p.id ≠ "none" → p.id ∈ prev.map Preset.id → prev.length = 1 →
      createToggle presets prev p = [N]) ∧
    (p.id ≠ "none" → p.id ∈ prev.map Preset.id → 1 < prev.length →
      createToggle presets prev p = prev.eraseP (fun q => decide (q.id = p.id))) ∧
    (p.id ≠ "none" → p.id ∉ prev.map Preset.id →
      createToggle presets prev p = prev.filter (fun q => decide (q.id ≠ "none")) ++ [p]) := by
  refine ⟨?_, ?_, ?_, ?_⟩
  · intro hp
    unfold createToggle
    rw [if_pos hp, hN]
    rfl
  · intro hp hmem hlen
    unfold createToggle
    rw [if_neg hp, if_pos ((any_id_iff prev p.id).mpr hmem), if_pos hlen, hN]
    rfl
  · intro hp hmem hlen
    unfold createToggle
    rw [if_neg hp, if_pos ((any_id_iff prev p.id).mpr hmem),
      if_neg (by omega : ¬ prev.length = 1)]
    exact filter_ne_eq_eraseP prev p.id hnd
  · intro hp hmem
    unfold createToggle
    rw [if_neg hp, if_neg (fun hc => hmem ((any_id_iff prev p.id).mp hc))]

theorem toggle_spec_cases_witness :
    createToggle cameraCatalogModel [camA] camNone = [camNone] ∧
    createToggle cameraCatalogModel [camA] camB =
      [camA].filter (fun q => decide (q.id ≠ "none")) ++ [camB] :=
  ⟨(toggle_spec_cases cameraCatalogModel [camA] camNone camNone (by decide)
      (by decide)).1 (by decide),
   (toggle_spec_cases cameraCatalogModel [camA] camB camNone (by decide)
      (by decide)).2.2.2 (by decide) (by decide)⟩

/-- C10: on a well-formed selection (non-empty, sentinel-free, duplicate-free)
toggling an absent non-sentinel preset twice returns exactly the original
selection, elements and order included. -/
theorem toggle_roundtrip (presets S : List Preset) (p : Preset)
    (hne : S ≠ []) (hsent : "none" ∉ S.map Preset.id)
    (hnd : (S.map Preset.id).Nodup)
    (hpid : p.id ≠ "none") (hmem : p.id ∉ S.map Preset.id) :
    createToggle presets (createToggle presets S p) p = S := by
  have h1 : createToggle presets S p = S ++ [p] := by
    unfold createToggle
    rw [if_neg hpid, if_neg (fun hc => hmem ((any_id_iff S p.id).mp hc)),
      filter_id_ne_of_not_mem S "none" hsent]
  rw [h1]
  have hany : (S ++ [p]).any (fun q => decide (q.id = p.id)) = true := by
    refine (any_id_iff (S ++ [p]) p.id).mpr ?_
    simp
  have hlen : ¬ (S ++ [p]).length = 1 := by
    have hS : S.length ≠ 0 := fun hc => hne (List.length_eq_zero.mp hc)
    simp only [List.length_append, List.length_singleton]
    omega
  unfold createToggle
  rw [if_neg hpid, if_pos hany, if_neg hlen, List.filter_append,
    filter_id_ne_of_not_mem S p.id hmem]
  simp

theorem toggle_roundtrip_witness :
    createToggle cameraCatalogModel (createToggle cameraCatalogModel [camA] camB) camB =
      [camA] :=
  toggle_roundtrip cameraCatalogModel [camA] camB (by decide) (by decide) (by decide)
    (by decide) (by decide)

/-- C3: the history cache update prepends the new item and truncates to the
first 12 entries, so the cache never exceeds 12 entries, and 13 successive
appends leave exactly the 12 most recently appended items in
most-recent-first order, whatever the prior contents were. -/
theorem history_cache_bound :
    (∀ (item : HistoryItem) (prev : List HistoryItem),
        appendHistory item prev = (item :: prev).take 12) ∧
    (∀ (item : HistoryItem) (prev : List HistoryItem),
        (appendHistory item prev).length ≤ 12) ∧
    (∀ (xs h0 : List HistoryItem), xs.length = 13 →
        xs.foldl (fun acc item => appendHistory item acc) h0 = xs.reverse.take 12) := by
  refine ⟨fun _ _ => rfl, ?_, ?_⟩
  · intro item prev
    simpa [appendHistory] using List.length_take_le 12 (item :: prev)
  · intro xs h0 hlen
    cases xs with
    | nil => simp at hlen
    | cons a t =>
        have hlent : t.length = 12 := by
          simpa using hlen
        have step1 : appendHistory a h0 = ((a :: h0).take 12) := rfl
        simp only [List.foldl_cons, step1]
        rw [foldl_appendHistory t (a :: h0)]
        have h12 : 12 ≤ t.reverse.length := by simp [hlent]
        rw [List.take_append_of_le_length h12, List.reverse_cons,
          List.take_append_of_le_length h12]

theorem selinv_sentinel_elim (S : List Preset) (h : S.map Preset.id = ["none"]) :
    ∃ q, S = [q] ∧ q.id = "none" := by
  cases S with
  | nil => simp at h
  | cons a t =>
      cases t with
      | nil =>
          refine ⟨a, rfl, ?_⟩
          simpa using h
      | cons b u => simp at h

theorem toggle_preserves_selinv (presets prev : List Preset) (p N : Preset)
    (hN : presets.find? (fun q => decide (q.id = "none")) = some N)
    (hinv : SelInv prev) :
    SelInv (createToggle presets prev p) := by
  have hNid : N.id = "none" := find_none_id presets N hN
  by_cases hp : p.id = "none"
  · unfold createToggle
    rw [if_pos hp, hN]
    left
    simp [hNid]
  · by_cases hsel : prev.any (fun q => decide (q.id = p.id)) = true
    · by_cases hlen : prev.length = 1
      · unfold createToggle
        rw [if_neg hp, if_pos hsel, if_pos hlen, hN]
        left
        simp [hNid]
      · unfold createToggle
        rw [if_neg hp, if_pos hsel, if_neg hlen]
        rcases hinv with hone | ⟨hne, hnone, hnd⟩
        · obtain ⟨q, hq, _⟩ := selinv_sentinel_elim prev hone
          exact absurd (by simp [hq]) hlen
        · right
          refine ⟨?_, ?_, ?_⟩
          · match prev, hne, hlen with
            | [q], _, hlen => exact absurd rfl hlen
            | a :: b :: t, _, _ => exact filter_ne_nonempty a b t p.id hnd
          · intro hmem
            obtain ⟨q, hq, hqid⟩ := List.mem_map.mp hmem
            exact hnone (List.mem_map.mpr ⟨q, (List.mem_filter.mp hq).1, hqid⟩)
          · exact ((List.filter_sublist prev).map Preset.id).nodup hnd
    · unfold createToggle
      rw [if_neg hp, if_neg hsel]
      have hpmem : p.id ∉ prev.map Preset.id := fun hc => hsel ((any_id_iff prev p.id).mpr hc)
      rcases hinv with hone | ⟨hne, hnone, hnd⟩
      · obtain ⟨q, hq, hqid⟩ := selinv_sentinel_elim prev hone
        have hfilt : prev.filter (fun q => decide (q.id ≠ "none")) = [] := by
          simp [hq, hqid]
        rw [hfilt]
        right
        simp [hp, Ne.symm hp]
      · rw [filter_id_ne_of_not_mem prev "none" hnone]
        right
        refine ⟨by simp, ?_, ?_⟩
        · intro hmem
          rw [List.map_append] at hmem
          rcases List.mem_append.mp hmem with hmem | hmem
          · exact hnone hmem
          · simp only [List.map_cons, List.map_nil, List.mem_singleton] at hmem
            exact hp hmem.symm
        · rw [List.map_append]
          refine List.Nodup.append hnd (by simp) ?_
          intro x hx hx1
          simp only [List.map_cons, List.map_nil, List.mem_singleton] at hx1
          exact hpmem (hx1 ▸ hx)

theorem analysisReplace_preserves_selinv (catalog : List Preset) (sugg : List String)
    (cur : List Preset)
    (hcat : (catalog.map Preset.id).Nodup)
    (hcur : SelInv cur)
    (hok : sugg = [] ∨ ((∃ q ∈ catalog, q.id ∈ sugg) ∧ "none" ∉ sugg)) :
    SelInv (analysisReplace catalog sugg cur) := by
  rcases hok with h | ⟨⟨q, hqcat, hqsugg⟩, hnone⟩
  · subst h
    simpa [analysisReplace] using hcur
  · have hemp : ¬ sugg.isEmpty = true := by
      intro hc
      rw [List.isEmpty_iff] at hc
      subst hc
      exact absurd hqsugg (by simp)
    unfold analysisReplace
    rw [if_neg hemp]
    right
    refine ⟨?_, ?_, ?_⟩
    · have hqmem : q ∈ catalog.filter (fun p => decide (p.id ∈ sugg)) :=
        List.mem_filter.mpr ⟨hqcat, by simpa using hqsugg⟩
      intro hc
      rw [hc] at hqmem
      exact absurd hqmem (by simp)
    · intro hmem
      obtain ⟨r, hr, hrid⟩ := List.mem_map.mp hmem
      have hrs := (List.mem_filter.mp hr).2
      simp only [decide_eq_true_eq] at hrs
      exact hnone (hrid ▸ hrs)
    · exact ((List.filter_sublist catalog).map Preset.id).nodup hcat

/-- C2's counterexample: the auto-analysis rewrite does not preserve the
never-empty selection invariant for arbitrary suggestion maps.  A non-empty
suggestion list whose ids match no preset of the category empties the
selection outright, and a list mixing the sentinel id with a real preset id
produces a selection containing the sentinel alongside another preset. -/
theorem analysis_replace_counterexample :
    analysisReplace cameraCatalogModel ["ghost"] [camA] = [] ∧
    ¬ SelInv (analysisReplace cameraCatalogModel ["ghost"] [camA]) ∧
    ¬ SelInv (analysisReplace cameraCatalogModel ["none", "camera-a"] [camA]) := by
  refine ⟨by decide, by decide, by decide⟩

/-- C2 (amended): the toggle operation always preserves the selection
invariant (selection is exactly the sentinel singleton or non-empty,
sentinel-free and duplicate-free); the auto-analysis per-category rewrite —
which is exactly what `runAnalysisSuccess` applies to each of the five
category selections — preserves it provided the applied suggestion list is
either empty (no rewrite) or contains the id of at least one catalog preset
and does not contain the sentinel id. -/
theorem selection_invariant_amended :
    (∀ (presets prev : List Preset) (p N : Preset),
      presets.find? (fun q => decide (q.id = "none")) = some N →
      SelInv prev → SelInv (createToggle presets prev p)) ∧
    (∀ (catalog : List Preset) (sugg : List String) (cur : List Preset),
      (catalog.map Preset.id).Nodup → SelInv cur →
      (sugg = [] ∨ ((∃ q ∈ catalog, q.id ∈ sugg) ∧ "none" ∉ sugg)) →
      SelInv (analysisReplace catalog sugg cur)) ∧
    (∀ (cats : Catalogs) (sugg : SuggestionMap) (s : SessionState),
      (runAnalysisSuccess cats sugg s).selectedCameras =
        analysisReplace cats.camera sugg.camera s.selectedCameras) := by
  exact ⟨toggle_preserves_selinv, analysisReplace_preserves_selinv, fun _ _ _ => rfl⟩

theorem selection_invariant_amended_witness :
    SelInv (createToggle cameraCatalogModel [camA] camB) ∧
    SelInv (analysisReplace cameraCatalogModel ["camera-a"] [camB]) :=
  ⟨selection_invariant_amended.1 cameraCatalogModel [camA] camB camNone (by decide) (by decide),
   selection_invariant_amended.2.1 cameraCatalogModel ["camera-a"] [camB] (by decide) (by decide)
     (Or.inr ⟨⟨camA, by decide, by decide⟩, by decide⟩)⟩

def img0 : ImageFile := { base64 := "aW1n", mimeType := "image/png" }

def res0 : GenResult := { base64 := "cmVz", mimeType := "image/png" }

def res1 : GenResult := { base64 := "dXBz", mimeType := "image/png" }

/-- A concrete session state mirroring the component's initial `useState`
values, used to instantiate universally quantified theorems in witnesses and
counterexamples. -/
def baseState : SessionState :=
  { appMode := .designKit
    isOnline := true
    productImage := none
    referenceImage := none
    generatedImage := none
    selectedCameras := cameraCatalogModel.take 1
    selectedLightings := []
    selectedMockups := []
    selectedManipulations := []
    selectedPeopleRetouches := []
    selectedRetouches := []
    customPrompt := ""
    useMagicComposite := true
    isLoading := false
    isAnalyzing := false
    suggestedPresetIds := emptySuggestions
    error := none
    creativeMode := .illustrate
    isGeneratingCreative := false
    creativeError := none
    illustrationImage := none
    illustrationReferenceImage := none
    illustrationCustomPrompt := ""
    illustrationResultImage := none
    isGeneratingIllustration := false
    generationStatusText := ""
    personImage := none
    retouchResultImage := none
    retouchSubMode := .smart
    selectedEnvironment := "Studio"
    generationHistory := []
    isUpscaling := none
    upscaleError := none }

def histItem0 : HistoryItem :=
  { id := "h0", source := img0, generated := res0, prompt := "a prompt",
    mode := .designKit, creativeSubMode := none }

def offState : SessionState := { baseState with isOnline := false, productImage := some img0 }

/-- C4: selecting a history item restores the session's mode (and, for
creative-studio items, its sub-mode), writes the item's source, generated
result, and prompt into exactly the source/result/prompt fields owned by that
mode (the retouch pane stores no prompt field, so only source and result are
restored there), and leaves all three error slots cleared to null. -/
theorem history_select_restores (s : SessionState) (item : HistoryItem) :
    (handleHistorySelect s item).error = none ∧
    (handleHistorySelect s item).creativeError = none ∧
    (handleHistorySelect s item).upscaleError = none ∧
    (handleHistorySelect s item).appMode = item.mode ∧
    (item.mode = AppMode.designKit →
      (handleHistorySelect s item).productImage = some item.source ∧
      (handleHistorySelect s item).generatedImage = some item.generated ∧
      (handleHistorySelect s item).customPrompt = item.prompt) ∧
    (item.mode = AppMode.creativeStudio →
      (handleHistorySelect s item).creativeMode =
        item.creativeSubMode.getD CreativeMode.illustrate ∧
      (item.creativeSubMode = some CreativeMode.illustrate →
        (handleHistorySelect s item).illustrationImage = some item.source ∧
        (handleHistorySelect s item).illustrationResultImage = some item.generated ∧
        (handleHistorySelect s item).illustrationCustomPrompt = item.prompt) ∧
      (item.creativeSubMode = some CreativeMode.retouch →
        (handleHistorySelect s item).personImage = some item.source ∧
        (handleHistorySelect s item).retouchResultImage = some item.generated)) := by
  obtain ⟨iid, isrc, igen, iprompt, imode, isub⟩ := item
  cases imode with
  | designKit => simp [handleHistorySelect]
  | creativeStudio =>
      cases isub with
      | none => simp [handleHistorySelect]
      | some sub => cases sub <;> simp [handleHistorySelect]

theorem history_select_restores_witness :
    (handleHistorySelect baseState histItem0).productImage = some img0 ∧
    (handleHistorySelect baseState histItem0).customPrompt = "a prompt" ∧
    (handleHistorySelect baseState histItem0).error = none :=
  ⟨((history_select_restores baseState histItem0).2.2.2.2.1 rfl).1,
   ((history_select_restores baseState histItem0).2.2.2.2.1 rfl).2.2,
   (history_select_restores baseState histItem0).1⟩

/-- C5: each of the four generation pipelines (composite generation,
illustration, smart retouch, environment), when its precondition fails —
offline or the required source image absent — writes a descriptive message
into its own error slot and performs zero external-boundary invocations. -/
theorem precondition_failures_no_call (s : SessionState) (newId : String)
    (o : CallOutcome GenResult) :
    (s.isOnline = false ∨ s.productImage = none →
      (handleDesignKitGeneration s newId o).2 = 0 ∧
      (handleDesignKitGeneration s newId o).1.error =
        some (if s.isOnline then "Please upload a product image first."
              else "You are offline. Please check your internet connection.")) ∧
    (s.isOnline = false ∨ s.illustrationImage = none →
      (handleGenerateIllustration s newId o).2 = 0 ∧
      (handleGenerateIllustration s newId o).1.creativeError =
        some (if s.isOnline then "Please upload an image to illustrate."
              else "You are offline.")) ∧
    (s.isOnline = false ∨ s.personImage = none →
      (handleSmartRetouch s newId o).2 = 0 ∧
      (handleSmartRetouch s newId o).1.creativeError =
        some (if s.isOnline then "Please upload a portrait to retouch."
              else "You are offline.")) ∧
    (s.isOnline = false ∨ s.personImage = none →
      (handleEnvironmentGeneration s newId o).2 = 0 ∧
      (handleEnvironmentGeneration s newId o).1.creativeError =
        some (if s.isOnline then "Please upload a portrait."
              else "You are offline.")) := by
  refine ⟨?_, ?_, ?_, ?_⟩ <;> intro h <;> cases hon : s.isOnline
  · simp [handleDesignKitGeneration, hon]
  · rcases h with h | h
    · rw [hon] at h; cases h
    · simp [handleDesignKitGeneration, hon, h]
  · simp [handleGenerateIllustration, hon]
  · rcases h with h | h
    · rw [hon] at h; cases h
    · simp [handleGenerateIllustration, hon, h]
  · simp [handleSmartRetouch, hon]
  · rcases h with h | h
    · rw [hon] at h; cases h
    · simp [handleSmartRetouch, hon, h]
  · simp [handleEnvironmentGeneration, hon]
  · rcases h with h | h
    · rw [hon] at h; cases h
    · simp [handleEnvironmentGeneration, hon, h]

theorem precondition_failures_no_call_witness :
    (handleDesignKitGeneration offState "t" CallOutcome.empty).2 = 0 ∧
    (handleDesignKitGeneration offState "t" CallOutcome.empty).1.error =
      some "You are offline. Please check your internet connection." := by
  have h := (precondition_failures_no_call offState "t" CallOutcome.empty).1 (Or.inl rfl)
  exact ⟨h.1, by simpa using h.2⟩

def upscaleReadyState : SessionState :=
  { baseState with
    appMode := .designKit
    productImage := some img0
    generatedImage := some res0
    creativeError := some "illustration failed"
    upscaleError := some "old upscale error" }

/-- C6's counterexample: starting a run does not leave the other pipelines'
error slots untouched.  At a state holding a creative-pipeline error and an
upscale error, starting an upscale run clears the creative error slot, and
starting a design-kit generation run clears the upscale error slot. -/
theorem error_isolation_counterexample :
    upscaleReadyState.creativeError = some "illustration failed" ∧
    (handleUpscale upscaleReadyState UpscaleTarget.hd "t" CallOutcome.empty).1.creativeError =
      none ∧
    upscaleReadyState.upscaleError = some "old upscale error" ∧
    (handleDesignKitGeneration upscaleReadyState "t" CallOutcome.empty).1.upscaleError =
      none :=
  ⟨rfl, rfl, rfl, rfl⟩

/-- C6 (amended): error-slot scoping per pipeline run.  The illustration,
smart-retouch, and environment runs touch only the creative error slot,
leaving the design-kit and upscale slots exactly as they were; the design-kit
generation run leaves the creative slot unchanged but additionally clears the
upscale error slot when it starts; the upscale run clears all three slots when
it starts (the design-kit and creative slots remain null at its end). -/
theorem error_isolation_amended (s : SessionState) (newId : String)
    (o : CallOutcome GenResult) (t : UpscaleTarget) :
    ((handleDesignKitGeneration s newId o).1.creativeError = s.creativeError) ∧
    (s.isOnline = true → s.productImage ≠ none →
      (handleDesignKitGeneration s newId o).1.upscaleError = none) ∧
    ((handleGenerateIllustration s newId o).1.error = s.error) ∧
    ((handleGenerateIllustration s newId o).1.upscaleError = s.upscaleError) ∧
    ((handleSmartRetouch s newId o).1.error = s.error) ∧
    ((handleSmartRetouch s newId o).1.upscaleError = s.upscaleError) ∧
    ((handleEnvironmentGeneration s newId o).1.error = s.error) ∧
    ((handleEnvironmentGeneration s newId o).1.upscaleError = s.upscaleError) ∧
    (imageToUpscale s ≠ none → upscaleSourceImage s ≠ none →
      (handleUpscale s t newId o).1.error = none ∧
      (handleUpscale s t newId o).1.creativeError = none) := by
  refine ⟨?_, ?_, ?_, ?_, ?_, ?_, ?_, ?_, ?_⟩
  · cases hon : s.isOnline <;> cases hpi : s.productImage <;> cases o <;>
      simp [handleDesignKitGeneration, designKitBegin, hon, hpi]
  · intro hon hpi
    obtain ⟨src, hsrc⟩ := Option.ne_none_iff_exists.mp hpi
    cases o <;> simp [handleDesignKitGeneration, designKitBegin, hon, hsrc.symm]
  · cases hon : s.isOnline <;> cases hpi : s.illustrationImage <;> cases o <;>
      simp [handleGenerateIllustration, illustrationBegin, hon, hpi]
  · cases hon : s.isOnline <;> cases hpi : s.illustrationImage <;> cases o <;>
      simp [handleGenerateIllustration, illustrationBegin, hon, hpi]
  · cases hon : s.isOnline <;> cases hpi : s.personImage <;> cases o <;>
      simp [handleSmartRetouch, smartRetouchBegin, hon, hpi]
  · cases hon : s.isOnline <;> cases hpi : s.personImage <;> cases o <;>
      simp [handleSmartRetouch, smartRetouchBegin, hon, hpi]
  · cases hon : s.isOnline <;> cases hpi : s.personImage <;> cases o <;>
      simp [handleEnvironmentGeneration, environmentBegin, hon, hpi]
  · cases hon : s.isOnline <;> cases hpi : s.personImage <;> cases o <;>
      simp [handleEnvironmentGeneration, environmentBegin, hon, hpi]
  · intro himg hsrc
    obtain ⟨g, hg⟩ := Option.ne_none_iff_exists.mp himg
    obtain ⟨src, hs⟩ := Option.ne_none_iff_exists.mp hsrc
    cases o <;> cases hm : s.appMode <;> cases hcm : s.creativeMode <;>
      simp [handleUpscale, upscaleBegin, hg.symm, hs.symm, hm, hcm]

def dkUpscaleState : SessionState :=
  { baseState with
    appMode := .designKit
    productImage := some img0
    generatedImage := some res0
    customPrompt := "studio shot" }

theorem error_isolation_amended_witness :
    (handleDesignKitGeneration dkUpscaleState "t" CallOutcome.empty).1.upscaleError = none ∧
    (handleUpscale dkUpscaleState UpscaleTarget.hd "t" CallOutcome.empty).1.error = none :=
  ⟨(error_isolation_amended dkUpscaleState "t" CallOutcome.empty UpscaleTarget.hd).2.1
      rfl (by simp [dkUpscaleState]),
   ((error_isolation_amended dkUpscaleState "t" CallOutcome.empty UpscaleTarget.hd).2.2.2.2.2.2.2.2
      (by simp [imageToUpscale, dkUpscaleState, baseState])
      (by simp [upscaleSourceImage, dkUpscaleState, baseState])).1⟩

/-- The catalogs instantiated with the spec-modelled camera catalog in every
category (the handlers only inspect the lists they are given). -/
def catalogsModel : Catalogs :=
  { camera := cameraCatalogModel
    lighting := cameraCatalogModel
    mockup := cameraCatalogModel
    manipulation := cameraCatalogModel
    peopleRetouch := cameraCatalogModel
    retouch := cameraCatalogModel }

/-- C7: disabling the magic-composite flag resets the camera, lighting,
manipulation, retouch, and people-retouch selections each to the singleton
holding that category's index-0 default preset and empties the suggestion map,
as one synchronous state transition; enabling the flag changes the flag and
nothing else. -/
theorem magic_composite_disable (cats : Catalogs) (s : SessionState)
    (c0 l0 m0 r0 p0 : Preset)
    (hc : cats.camera.head? = some c0) (hl : cats.lighting.head? = some l0)
    (hm : cats.manipulation.head? = some m0) (hr : cats.retouch.head? = some r0)
    (hp : cats.peopleRetouch.head? = some p0) :
    (handleMagicCompositeToggle cats false s).selectedCameras = [c0] ∧
    (handleMagicCompositeToggle cats false s).selectedLightings = [l0] ∧
    (handleMagicCompositeToggle cats false s).selectedManipulations = [m0] ∧
    (handleMagicCompositeToggle cats false s).selectedRetouches = [r0] ∧
    (handleMagicCompositeToggle cats false s).selectedPeopleRetouches = [p0] ∧
    (handleMagicCompositeToggle cats false s).suggestedPresetIds = emptySuggestions ∧
    (handleMagicCompositeToggle cats false s).useMagicComposite = false ∧
    handleMagicCompositeToggle cats true s = { s with useMagicComposite := true } := by
  refine ⟨?_, ?_, ?_, ?_, ?_, rfl, rfl, rfl⟩
  · simpa [handleMagicCompositeToggle] using take_one_of_head cats.camera c0 hc
  · simpa [handleMagicCompositeToggle] using take_one_of_head cats.lighting l0 hl
  · simpa [handleMagicCompositeToggle] using take_one_of_head cats.manipulation m0 hm
  · simpa [handleMagicCompositeToggle] using take_one_of_head cats.retouch r0 hr
  · simpa [handleMagicCompositeToggle] using take_one_of_head cats.peopleRetouch p0 hp

theorem magic_composite_disable_witness :
    (handleMagicCompositeToggle catalogsModel false baseState).selectedCameras = [camNone] ∧
    handleMagicCompositeToggle catalogsModel true baseState =
      { baseState with useMagicComposite := true } :=
  ⟨(magic_composite_disable catalogsModel baseState camNone camNone camNone camNone camNone
      rfl rfl rfl rfl rfl).1,
   (magic_composite_disable catalogsModel baseState camNone camNone camNone camNone camNone
      rfl rfl rfl rfl rfl).2.2.2.2.2.2.2⟩

/-- C9: the mockup category is single-select: selecting a preset whose id
differs from the currently selected one (the head of the selection) yields
exactly that preset as a singleton, and re-selecting the currently selected
preset yields exactly the index-0 default mockup preset as a singleton. -/
theorem mockup_single_select (mockups current : List Preset) (p m0 : Preset)
    (h0 : mockups.head? = some m0) :
    (current.head?.map Preset.id ≠ some p.id →
      handleMockupSelect mockups p current = [p]) ∧
    (current.head?.map Preset.id = some p.id →
      handleMockupSelect mockups p current = [m0]) := by
  constructor
  · intro h
    unfold handleMockupSelect
    cases hc : current.head? with
    | none => rfl
    | some q =>
        have hq : ¬ q.id = p.id := by
          intro he
          apply h
          rw [hc]
          simp [he]
        simp [hq]
  · intro h
    unfold handleMockupSelect
    cases hc : current.head? with
    | none => rw [hc] at h; simp at h
    | some q =>
        rw [hc] at h
        simp only [Option.map_some', Option.some.injEq] at h
        simp [h, take_one_of_head mockups m0 h0]

theorem mockup_single_select_witness :
    handleMockupSelect cameraCatalogModel camB [camA] = [camB] ∧
    handleMockupSelect cameraCatalogModel camA [camA] = [camNone] :=
  ⟨(mockup_single_select cameraCatalogModel [camA] camB camNone rfl).1 (by decide),
   (mockup_single_select cameraCatalogModel [camA] camA camNone rfl).2 (by decide)⟩

/-- C8's counterexample: a successful upscale in design-kit mode records the
current custom prompt into history, not a provenance string naming the
upscale. -/
theorem upscale_prompt_counterexample :
    ((handleUpscale dkUpscaleState UpscaleTarget.fourK "h1"
        (CallOutcome.ok res1)).1.generationHistory.head?.map HistoryItem.prompt) =
      some "studio shot" ∧
    "studio shot" ≠ "Upscaled to 4K" :=
  ⟨rfl, by decide⟩

/-- C8 (amended): a successful upscale writes the result back into the result
field selected by the current mode — the same field the source was taken
from — and appends a history item whose id carries the `-upscaled-<target>`
provenance tag; the item's prompt is the provenance string
`"Upscaled to HD"`/`"Upscaled to 4K"` in the creative-studio modes, but in
design-kit mode it is the current custom prompt. -/
theorem upscale_success_amended (s : SessionState) (t : UpscaleTarget)
    (newId : String) (r : GenResult) :
    (∀ img src, s.appMode = AppMode.designKit →
      s.generatedImage = some img → s.productImage = some src →
      (handleUpscale s t newId (CallOutcome.ok r)).1.generatedImage = some r ∧
      (handleUpscale s t newId (CallOutcome.ok r)).1.generationHistory.head? =
        some { id := newId ++ "-upscaled-" ++ t.lower, source := src, generated := r,
               prompt := s.customPrompt, mode := AppMode.designKit,
               creativeSubMode := none }) ∧
    (∀ img src, s.appMode = AppMode.creativeStudio →
      s.creativeMode = CreativeMode.retouch →
      s.retouchResultImage = some img → s.personImage = some src →
      (handleUpscale s t newId (CallOutcome.ok r)).1.retouchResultImage = some r ∧
      (handleUpscale s t newId (CallOutcome.ok r)).1.generationHistory.head? =
        some { id := newId ++ "-upscaled-" ++ t.lower, source := src, generated := r,
               prompt := "Upscaled to " ++ t.upper, mode := AppMode.creativeStudio,
               creativeSubMode := some CreativeMode.retouch }) ∧
    (∀ img src, s.appMode = AppMode.creativeStudio →
      s.creativeMode = CreativeMode.illustrate →
      s.illustrationResultImage = some img → s.illustrationImage = some src →
      (handleUpscale s t newId (CallOutcome.ok r)).1.illustrationResultImage = some r ∧
      (handleUpscale s t newId (CallOutcome.ok r)).1.generationHistory.head? =
        some { id := newId ++ "-upscaled-" ++ t.lower, source := src, generated := r,
               prompt := "Upscaled to " ++ t.upper, mode := AppMode.creativeStudio,
               creativeSubMode := some CreativeMode.illustrate }) := by
  refine ⟨?_, ?_, ?_⟩
  · intro img src hm hg hs
    have h1 : imageToUpscale s = some img := by simp [imageToUpscale, hm, hg]
    have h2 : upscaleSourceImage s = some src := by simp [upscaleSourceImage, hm, hs]
    simp [handleUpscale, upscaleBegin, h1, h2, hm, head_appendHistory]
  · intro img src hm hcm hg hs
    have h1 : imageToUpscale s = some img := by simp [imageToUpscale, hm, hcm, hg]
    have h2 : upscaleSourceImage s = some src := by simp [upscaleSourceImage, hm, hcm, hs]
    simp [handleUpscale, upscaleBegin, h1, h2, hm, hcm, head_appendHistory]
  · intro img src hm hcm hg hs
    have h1 : imageToUpscale s = some img := by simp [imageToUpscale, hm, hcm, hg]
    have h2 : upscaleSourceImage s = some src := by simp [upscaleSourceImage, hm, hcm, hs]
    simp [handleUpscale, upscaleBegin, h1, h2, hm, hcm, head_appendHistory]

theorem upscale_success_amended_witness :
    (handleUpscale dkUpscaleState UpscaleTarget.hd "h2" (CallOutcome.ok res1)).1.generatedImage =
      some res1 ∧
    (handleUpscale dkUpscaleState UpscaleTarget.hd "h2"
        (CallOutcome.ok res1)).1.generationHistory.head? =
      some { id := "h2" ++ "-upscaled-" ++ UpscaleTarget.hd.lower, source := img0,
             generated := res1, prompt := dkUpscaleState.customPrompt,
             mode := AppMode.designKit, creativeSubMode := none } :=
  (upscale_success_amended dkUpscaleState UpscaleTarget.hd "h2" res1).1 res0 img0 rfl rfl rfl

def histItems13 : List HistoryItem :=
  (List.range 13).map (fun n =>
    { id := toString n, source := img0, generated := res0, prompt := "",
      mode := AppMode.designKit, creativeSubMode := none })

theorem history_cache_bound_witness :
    histItems13.foldl (fun acc item => appendHistory item acc) [histItem0] =
      histItems13.reverse.take 12 :=
  history_cache_bound.2.2 histItems13 [histItem0] rfl
